import Mathlib

/-
  Verification development for the HomeStore engine core.

  Part 1 models the log-store sequence-number tracker and the global
  safe-truncation protocol (HomeLogStore in log_store.hpp is a declaration-only
  header, so those operations are modelled from the specification text).
  Part 2 embeds the engine facade (homestore.hpp), whose member functions are
  defined inline in the source header.
-/

namespace HomeStoreModel

/-- Status of one record slot of a log store, the status set
{EMPTY, ISSUED, COMPLETED, TRUNCATED, GAP-FILLED} of the spec. -/
inductive RecStatus where
  | EMPTY
  | ISSUED
  | COMPLETED
  | TRUNCATED
  | GAPFILLED
deriving DecidableEq, Repr

/-- Modelled from the spec: the dense stream tracker of a log store, mapping
contiguous LSNs starting at the truncation floor to record slots. The member
functions of HomeLogStore are only declared under src (log_store.hpp carries
no definitions), so the tracker is modelled from the data-model section of the
spec: `base` is the first tracked LSN, `slots` holds the statuses from `base`
on; every LSN below `base` is TRUNCATED and every LSN past the tracked range
is EMPTY. -/
structure StreamTracker where
  base : Int
  slots : List RecStatus
deriving DecidableEq, Repr

/-- Status stored at index `i` of a slot list; indices past the end are EMPTY. -/
def statusAt (l : List RecStatus) (i : Nat) : RecStatus :=
  (l[i]?).getD RecStatus.EMPTY

/-- Status of the slot of an arbitrary LSN in a tracker. -/
def StreamTracker.slotStatus (t : StreamTracker) (lsn : Int) : RecStatus :=
  if lsn < t.base then RecStatus.TRUNCATED
  else statusAt t.slots (lsn - t.base).toNat

/-- Number of leading slots of a list satisfying `good`. -/
def countContig (good : RecStatus → Bool) : List RecStatus → Nat
  | [] => 0
  | s :: rest => if good s then countContig good rest + 1 else 0

/-- Completed-side predicate: a slot counts when COMPLETED or GAP-FILLED. -/
def goodCompleted (s : RecStatus) : Bool :=
  s = RecStatus.COMPLETED || s = RecStatus.GAPFILLED

/-- Issued-side predicate: a slot counts when ISSUED or GAP-FILLED. -/
def goodIssued (s : RecStatus) : Bool :=
  s = RecStatus.ISSUED || s = RecStatus.GAPFILLED

/-- Modelled from the spec: the generic contiguous-sequence-number query of
HomeLogStore. Starting from `f` (exclusive) it walks forward while the slot
satisfies `good` and returns the last LSN of the contiguous good run
(inclusive), returning `f` itself when the very next slot is not good. -/
def contiguousUpto (good : RecStatus → Bool) (t : StreamTracker) (f : Int) : Int :=
  if f + 1 < t.base then f
  else f + (countContig good (t.slots.drop (f + 1 - t.base).toNat) : Int)

/-- Modelled from the spec: get_contiguous_completed_seq_num of HomeLogStore. -/
def get_contiguous_completed_seq_num (t : StreamTracker) (f : Int) : Int :=
  contiguousUpto goodCompleted t f

/-- Modelled from the spec: get_contiguous_issued_seq_num of HomeLogStore. -/
def get_contiguous_issued_seq_num (t : StreamTracker) (f : Int) : Int :=
  contiguousUpto goodIssued t f

lemma statusAt_drop (l : List RecStatus) (n i : Nat) :
    statusAt (l.drop n) i = statusAt l (n + i) := by
  simp [statusAt, List.getElem?_drop]

lemma countContig_good (good : RecStatus → Bool) :
    ∀ (l : List RecStatus) (i : Nat), i < countContig good l →
      good (statusAt l i) = true := by
  intro l
  induction l with
  | nil => intro i h; simp [countContig] at h
  | cons s rest ih =>
    intro i h
    by_cases hs : good s = true
    · cases i with
      | zero => simpa [statusAt] using hs
      | succ j =>
        have hj : j < countContig good rest := by
          simp [countContig, hs] at h; omega
        simpa [statusAt] using ih j hj
    · simp only [Bool.not_eq_true] at hs
      simp [countContig, hs] at h

lemma countContig_stop (good : RecStatus → Bool)
    (hE : good RecStatus.EMPTY = false) :
    ∀ l : List RecStatus, good (statusAt l (countContig good l)) = false := by
  intro l
  induction l with
  | nil => simpa [countContig, statusAt] using hE
  | cons s rest ih =>
    by_cases hs : good s = true
    · simpa [countContig, hs, statusAt] using ih
    · simp only [Bool.not_eq_true] at hs
      simp [countContig, hs, statusAt]

lemma contiguousUpto_spec (good : RecStatus → Bool)
    (hE : good RecStatus.EMPTY = false)
    (hT : good RecStatus.TRUNCATED = false)
    (t : StreamTracker) (f : Int) :
    f ≤ contiguousUpto good t f ∧
    (∀ j : Int, f < j → j ≤ contiguousUpto good t f →
        good (t.slotStatus j) = true) ∧
    (∀ m : Int, f ≤ m →
        (∀ j : Int, f < j → j ≤ m → good (t.slotStatus j) = true) →
        m ≤ contiguousUpto good t f) := by
  by_cases hb : f + 1 < t.base
  · have hk : contiguousUpto good t f = f := by simp [contiguousUpto, hb]
    refine ⟨le_of_eq hk.symm, ?_, ?_⟩
    · intro j h1 h2; rw [hk] at h2; omega
    · intro m hm hgood
      rw [hk]
      by_contra hmf
      push_neg at hmf
      have := hgood (f + 1) (by omega) (by omega)
      rw [StreamTracker.slotStatus, if_pos hb] at this
      rw [hT] at this
      exact absurd this (by simp)
  · push_neg at hb
    set n : Nat := (f + 1 - t.base).toNat with hn
    set c : Nat := countContig good (t.slots.drop n) with hc
    have hk : contiguousUpto good t f = f + (c : Int) := by
      simp only [contiguousUpto, hc, hn]
      rw [if_neg (by omega)]
    refine ⟨by rw [hk]; omega, ?_, ?_⟩
    · intro j h1 h2
      rw [hk] at h2
      have hjb : ¬ j < t.base := by omega
      rw [StreamTracker.slotStatus, if_neg hjb]
      have hidx : (j - t.base).toNat = n + (j - f - 1).toNat := by omega
      rw [hidx, ← statusAt_drop]
      exact countContig_good good _ _ (by omega)
    · intro m hm hgood
      rw [hk]
      by_contra hmk
      push_neg at hmk
      have hj := hgood (f + 1 + (c : Int)) (by omega) (by omega)
      have hjb : ¬ f + 1 + (c : Int) < t.base := by omega
      rw [StreamTracker.slotStatus, if_neg hjb] at hj
      have hidx : (f + 1 + (c : Int) - t.base).toNat = n + c := by omega
      rw [hidx, ← statusAt_drop] at hj
      have hstop := countContig_stop good hE (t.slots.drop n)
      rw [← hc] at hstop
      simp [hstop] at hj

/-- Claim C1: for every log store and every sequence number `from`, the value
k returned by get_contiguous_completed_seq_num satisfies k ≥ from, every slot
in the half-open range (from, k] is COMPLETED or GAP-FILLED, and k is the
largest value with that property; the analogous property holds for
get_contiguous_issued_seq_num with status ISSUED (or GAP-FILLED). -/
theorem contiguous_seq_num_correct (t : StreamTracker) (f : Int) :
    (f ≤ get_contiguous_completed_seq_num t f ∧
      (∀ j : Int, f < j → j ≤ get_contiguous_completed_seq_num t f →
          goodCompleted (t.slotStatus j) = true) ∧
      (∀ m : Int, f ≤ m →
          (∀ j : Int, f < j → j ≤ m → goodCompleted (t.slotStatus j) = true) →
          m ≤ get_contiguous_completed_seq_num t f)) ∧
    (f ≤ get_contiguous_issued_seq_num t f ∧
      (∀ j : Int, f < j → j ≤ get_contiguous_issued_seq_num t f →
          goodIssued (t.slotStatus j) = true) ∧
      (∀ m : Int, f ≤ m →
          (∀ j : Int, f < j → j ≤ m → goodIssued (t.slotStatus j) = true) →
          m ≤ get_contiguous_issued_seq_num t f)) :=
  ⟨contiguousUpto_spec goodCompleted (by decide) (by decide) t f,
   contiguousUpto_spec goodIssued (by decide) (by decide) t f⟩

/-- Concrete instantiation of claim C1 on the gap-fill scenario of the spec:
with slots 0..4 being COMPLETED, COMPLETED, GAPFILLED, COMPLETED, COMPLETED,
the contiguous completed watermark from -1 is at least -1. -/
theorem contiguous_seq_num_correct_witness :
    (-1 : Int) ≤ get_contiguous_completed_seq_num
      ⟨0, [RecStatus.COMPLETED, RecStatus.COMPLETED, RecStatus.GAPFILLED,
           RecStatus.COMPLETED, RecStatus.COMPLETED]⟩ (-1) :=
  (contiguous_seq_num_correct
      ⟨0, [RecStatus.COMPLETED, RecStatus.COMPLETED, RecStatus.GAPFILLED,
           RecStatus.COMPLETED, RecStatus.COMPLETED]⟩ (-1)).1.1

/-- Address of a persisted record inside the Log Device: the flush-batch id
and the offset of the record. This is the unit of device-side truncation. -/
structure logdev_key where
  idx : Int
  dev_offset : Int
deriving DecidableEq, Repr

/-- Ordering of logdev keys: batch id first, then offset. -/
def logdev_key.le (a b : logdev_key) : Bool :=
  a.idx < b.idx || (a.idx = b.idx && a.dev_offset ≤ b.dev_offset)

/-- Truncation barrier of a log store: an LSN paired with the logdev key of the
flush batch that ended at it. -/
structure seq_ld_key_pair where
  seq_num : Int
  ld_key : logdev_key
deriving DecidableEq, Repr

/-- Modelled from the spec: the truncation-relevant state of one log store —
the flush-aligned truncation barriers and the in-memory truncation floor.
HomeLogStore's pre_device_truncation is declared but not defined under src. -/
structure StoreTruncState where
  truncation_barriers : List seq_ld_key_pair
  truncated_upto : Int
deriving DecidableEq, Repr

/-- Modelled from the spec: pre_device_truncation returns the per-store safe
truncation boundary — the highest barrier whose LSN is at most the in-memory
truncation floor — or none (an invalid boundary) when the store has no
eligible barrier, e.g. no flushed records since the last truncation. -/
def pre_device_truncation (st : StoreTruncState) : Option logdev_key :=
  st.truncation_barriers.foldl
    (fun acc p =>
      if p.seq_num ≤ st.truncated_upto then
        match acc with
        | none => some p.ld_key
        | some k => some (if logdev_key.le k p.ld_key then p.ld_key else k)
      else acc)
    none

/-- Minimum of the valid per-store boundaries; none when every boundary is
invalid. -/
def globalSafeKey : List (Option logdev_key) → Option logdev_key
  | [] => none
  | none :: rest => globalSafeKey rest
  | some k :: rest =>
    match globalSafeKey rest with
    | none => some k
    | some k2 => some (if logdev_key.le k k2 then k else k2)

/-- Device-side truncation state of one Log Device. -/
structure LogDevState where
  truncated_upto : Option logdev_key
deriving DecidableEq, Repr

/-- Modelled from the spec: one round of the global safe-truncation protocol.
Each store sharing the Log Device reports its pre_device_truncation boundary,
the engine takes the minimum over the valid boundaries and truncates the
device there; when no store has a valid boundary the device is untouched. -/
def truncation_round (dev : LogDevState) (stores : List StoreTruncState) :
    LogDevState :=
  match globalSafeKey (stores.map pre_device_truncation) with
  | none => dev
  | some k => { truncated_upto := some k }

lemma logdev_key_le_refl (a : logdev_key) : logdev_key.le a a = true := by
  simp [logdev_key.le]

lemma logdev_key_le_cases (a b : logdev_key) :
    logdev_key.le a b = true ∨ logdev_key.le b a = true := by
  simp only [logdev_key.le, Bool.or_eq_true, Bool.and_eq_true,
    decide_eq_true_eq]
  omega

lemma logdev_key_le_trans {a b c : logdev_key}
    (h1 : logdev_key.le a b = true) (h2 : logdev_key.le b c = true) :
    logdev_key.le a c = true := by
  simp only [logdev_key.le, Bool.or_eq_true, Bool.and_eq_true,
    decide_eq_true_eq] at h1 h2 ⊢
  omega

lemma globalSafeKey_none :
    ∀ bs : List (Option logdev_key), globalSafeKey bs = none →
      ∀ b : logdev_key, some b ∈ bs → False := by
  intro bs
  induction bs with
  | nil => intro _ b hb; simp at hb
  | cons hd rest ih =>
    intro h b hb
    match hd with
    | none =>
      rcases List.mem_cons.mp hb with h1 | h1
      · exact Option.noConfusion h1
      · exact ih h b h1
    | some k1 =>
      have h2 : globalSafeKey (some k1 :: rest) =
          (match globalSafeKey rest with
           | none => some k1
           | some k2 => some (if logdev_key.le k1 k2 then k1 else k2)) := rfl
      rw [h2] at h
      match hrest : globalSafeKey rest with
      | none => rw [hrest] at h; exact Option.noConfusion h
      | some k2 => rw [hrest] at h; exact Option.noConfusion h

lemma globalSafeKey_min :
    ∀ (bs : List (Option logdev_key)) (k : logdev_key),
      globalSafeKey bs = some k →
      ∀ b : logdev_key, some b ∈ bs → logdev_key.le k b = true := by
  intro bs
  induction bs with
  | nil => intro k h; simp [globalSafeKey] at h
  | cons hd rest ih =>
    intro k h b hb
    match hd with
    | none =>
      rw [show globalSafeKey (none :: rest) = globalSafeKey rest from rfl] at h
      rcases List.mem_cons.mp hb with h1 | h1
      · exact Option.noConfusion h1
      · exact ih k h b h1
    | some k1 =>
      rw [show globalSafeKey (some k1 :: rest) =
          (match globalSafeKey rest with
           | none => some k1
           | some k2 => some (if logdev_key.le k1 k2 then k1 else k2))
          from rfl] at h
      rcases List.mem_cons.mp hb with h1 | h1
      · have hbk1 : b = k1 := Option.some.inj h1
        subst hbk1
        match hrest : globalSafeKey rest with
        | none =>
          rw [hrest] at h
          have hk : k = b := (Option.some.inj h).symm
          subst hk; exact logdev_key_le_refl k
        | some k2 =>
          rw [hrest] at h
          have h3 : some (if logdev_key.le b k2 = true then b else k2) = some k := h
          by_cases hle : logdev_key.le b k2 = true
          · have hk : k = b := by rw [if_pos hle] at h3; exact (Option.some.inj h3).symm
            subst hk; exact logdev_key_le_refl k
          · have hk : k = k2 := by rw [if_neg hle] at h3; exact (Option.some.inj h3).symm
            subst hk
            rcases logdev_key_le_cases b k with h2 | h2
            · exact absurd h2 hle
            · exact h2
      · match hrest : globalSafeKey rest with
        | none => exact (globalSafeKey_none rest hrest b h1).elim
        | some k2 =>
          rw [hrest] at h
          have h3 : some (if logdev_key.le k1 k2 = true then k1 else k2) = some k := h
          have hk2b : logdev_key.le k2 b = true := ih k2 hrest b h1
          by_cases hle : logdev_key.le k1 k2 = true
          · have hk : k = k1 := by rw [if_pos hle] at h3; exact (Option.some.inj h3).symm
            subst hk
            exact logdev_key_le_trans hle hk2b
          · have hk : k = k2 := by rw [if_neg hle] at h3; exact (Option.some.inj h3).symm
            subst hk
            exact hk2b

/-- Claim C2: for every set of log stores sharing one Log Device, the
device-side truncation point chosen by the global truncation protocol never
advances beyond the minimum over all stores of the per-store safe truncation
boundary returned by pre_device_truncation (stores whose boundary is invalid
are ignored and, when no store has a valid boundary, the device is not
truncated at all). -/
theorem global_truncation_safe (dev : LogDevState)
    (stores : List StoreTruncState) :
    ((truncation_round dev stores).truncated_upto = dev.truncated_upto ∧
      globalSafeKey (stores.map pre_device_truncation) = none) ∨
    (∃ k : logdev_key,
      (truncation_round dev stores).truncated_upto = some k ∧
      globalSafeKey (stores.map pre_device_truncation) = some k ∧
      ∀ st ∈ stores, ∀ b : logdev_key,
        pre_device_truncation st = some b → logdev_key.le k b = true) := by
  match hg : globalSafeKey (stores.map pre_device_truncation) with
  | none =>
    left
    exact ⟨by simp [truncation_round, hg], rfl⟩
  | some k =>
    right
    refine ⟨k, by simp [truncation_round, hg], rfl, ?_⟩
    intro st hst b hbnd
    apply globalSafeKey_min _ k hg
    rw [← hbnd]
    exact List.mem_map_of_mem pre_device_truncation hst

/-- Concrete instantiation of claim C2 on the cross-store truncation scenario
of the spec: store one has boundary key {1, 50}, store two has boundary key
{0, 10}; the protocol truncates the device at {0, 10}, the minimum. -/
theorem global_truncation_safe_witness :
    (truncation_round ⟨none⟩
        [⟨[⟨100, ⟨1, 50⟩⟩], 100⟩, ⟨[⟨50, ⟨0, 10⟩⟩], 50⟩]).truncated_upto
      = some ⟨0, 10⟩ := by
  rcases global_truncation_safe ⟨none⟩
      [⟨[⟨100, ⟨1, 50⟩⟩], 100⟩, ⟨[⟨50, ⟨0, 10⟩⟩], 50⟩] with
    ⟨h1, h2⟩ | ⟨k, h1, h2, h3⟩
  · exact absurd h2 (by decide)
  · have he : globalSafeKey
        (List.map pre_device_truncation
          [⟨[⟨100, ⟨1, 50⟩⟩], 100⟩, ⟨[⟨50, ⟨0, 10⟩⟩], 50⟩])
        = some ⟨0, 10⟩ := by decide
    have hk : k = ⟨0, 10⟩ := Option.some.inj (he.symm.trans h2).symm
    rw [hk] at h1
    exact h1

/-
  Part 2: embedding of the engine facade, homestore.hpp. Every member
  function modelled below is defined inline in that header.
-/

/-- Type tag of a block store, VENUM blkstore_type of homestore.hpp. -/
inductive blkstore_type where
  | DATA_STORE
  | INDEX_STORE
  | SB_STORE
  | LOGDEV_STORE
  | META_STORE
deriving DecidableEq, Repr

/-- Block identifier; the engine only inspects validity here. -/
structure BlkId where
  id : Nat
  valid : Bool
deriving DecidableEq, Repr

/-- Distinguished invalid BlkId (BlkId::invalidate / is_valid of the source). -/
def invalid_blkid : BlkId := ⟨0, false⟩

/-- Payload written into the context_data of a vdev record: a plain
blkstore_blob is just {type}; the superblock variant sb_blkstore_blob is
{type, blkid}. The type field is the leading tag in both layouts. -/
inductive ContextBlob where
  | plain (type : blkstore_type)
  | withBlkid (type : blkstore_type) (blkid : BlkId)
deriving DecidableEq, Repr

/-- Leading type tag of a context blob (blob->type in the source, present in
both blkstore_blob and sb_blkstore_blob layouts). -/
def ContextBlob.tag : ContextBlob → blkstore_type
  | .plain t => t
  | .withBlkid t _ => t

/-- View of a context blob as an sb_blkstore_blob, as taken by the SB and META
reattach paths, which cast context_data to sb_blkstore_blob. For a plain blob
the blkid field lies past the bytes that were written; those unwritten bytes
are modelled as the invalid BlkId. -/
def ContextBlob.blkid_view : ContextBlob → BlkId
  | .plain _ => invalid_blkid
  | .withBlkid _ b => b

/-- Caching mode of a block store. -/
inductive cache_policy where
  | PASS_THRU
  | WRITEBACK_CACHE
  | RD_MODIFY_WRITEBACK_CACHE
deriving DecidableEq, Repr

/-- Persistent descriptor of one virtual device, vdev_info_block. -/
structure vdev_info_block where
  context_data : ContextBlob
  failed : Bool
  size : Nat
  num_mirrors : Nat
deriving DecidableEq, Repr

/-- One constructed block store, recording the construction parameters the
facade passes to the BlkStore constructors plus the runtime quantities the
facade later reads (used size, total size, recovery flag). -/
structure BlkStore where
  cache_type : cache_policy
  nmirror : Nat
  blk_size : Nat
  size : Nat
  used_size : Nat
  name : String
  auto_recovery : Bool
  recovery_init : Bool
  context_blob : ContextBlob
  recovery_completed : Bool
deriving DecidableEq, Repr

/-- recovery_done of a block store: marks the allocator state consistent. -/
def BlkStore.recovery_done (bs : BlkStore) : BlkStore :=
  { bs with recovery_completed := true }

/-- Error kinds of homestore_error used by the facade. -/
inductive homestore_error where
  | space_not_avail
  | init_failed
  | vdev_failed
deriving DecidableEq, Repr

/-- Exceptions thrown by the facade: homestore_exception carries a message and
an error kind; std::runtime_error and std::invalid_argument carry a message. -/
inductive HsExcept where
  | homestore_exc (msg : String) (err : homestore_error)
  | runtime_error (msg : String)
  | invalid_argument (msg : String)
deriving DecidableEq, Repr

/-- Allocation status returned by alloc_contiguous_blk. -/
inductive BlkAllocStatus where
  | SUCCESS
  | FAILED
  | SPACE_FULL
deriving DecidableEq, Repr

/-- Allocation hints, blk_alloc_hints; the facade sets all three fields. -/
structure blk_alloc_hints where
  desired_temp : Nat
  dev_id_hint : Int
  is_contiguous : Bool
deriving DecidableEq, Repr

/-- Drive attributes relevant to the facade. -/
structure drive_attributes where
  phys_page_size : Nat
  atomic_phys_page_size : Nat
deriving DecidableEq, Repr

/-- Static environment of one engine instance: the static configuration, the
device-manager capacity and first-boot verdict, and the behaviour of the
superblock store allocator (external allocator state). -/
structure Env where
  total_cap : Nat
  num_devices : Nat
  min_virtual_page_size : Nat
  drive_attr : drive_attributes
  meta_blk_page_sz : Nat
  first_time_boot : Bool
  sb_alloc : Nat → blk_alloc_hints → BlkAllocStatus × BlkId

/-- Mutable facade state: the five block-store slots and the scalar members
of HomeStore, plus whether meta_blk_mgr->start has run. -/
structure HomeStoreState where
  m_data_blk_store : Option BlkStore
  m_index_blk_store : Option BlkStore
  m_sb_blk_store : Option BlkStore
  m_logdev_blk_store : Option BlkStore
  m_meta_blk_store : Option BlkStore
  m_size_avail : Nat
  m_vdev_failed : Bool
  m_data_pagesz : Nat
  meta_mgr_started : Bool
deriving Repr

/-- State right after HomeStore::init: no store constructed,
m_data_pagesz = input.min_virtual_page_size. -/
def init_state (env : Env) : HomeStoreState :=
  { m_data_blk_store := none, m_index_blk_store := none, m_sb_blk_store := none,
    m_logdev_blk_store := none, m_meta_blk_store := none,
    m_size_avail := 0, m_vdev_failed := false,
    m_data_pagesz := env.min_virtual_page_size, meta_mgr_started := false }

/-- sisl::round_up: least multiple of align that is at least size. -/
def round_up (size align : Nat) : Nat := ((size + align - 1) / align) * align

/-- Result of a facade step: the state reached, and the exception thrown, if
any (a thrown exception aborts the caller, but state mutations made before
the throw persist). -/
abbrev HsResult := HomeStoreState × Option HsExcept

/-- Allocation hints built by alloc_sb_blk: desired_temp 0, dev_id_hint -1,
is_contiguous true. -/
def sb_alloc_hints : blk_alloc_hints :=
  { desired_temp := 0, dev_id_hint := -1, is_contiguous := true }

/-- HomeStore::alloc_sb_blk: contiguous allocation from the superblock store;
throws space_not_avail unless the allocator reports SUCCESS. -/
def alloc_sb_blk (env : Env) (sz : Nat) : Except HsExcept BlkId :=
  let r := env.sb_alloc sz sb_alloc_hints
  if r.1 = BlkAllocStatus.SUCCESS then Except.ok r.2
  else Except.error
    (HsExcept.homestore_exc "space not available" homestore_error.space_not_avail)

/-- HomeStore::create_data_blkstore. -/
def create_data_blkstore (env : Env) (s : HomeStoreState)
    (vb : Option vdev_info_block) : HsResult :=
  match vb with
  | none =>
    let blob := ContextBlob.plain blkstore_type.DATA_STORE
    let size := round_up (90 * env.total_cap / 100) env.drive_attr.phys_page_size
    let bs : BlkStore :=
      { cache_type := cache_policy.WRITEBACK_CACHE, nmirror := 0,
        blk_size := s.m_data_pagesz, size := size, used_size := 0,
        name := "data", auto_recovery := true, recovery_init := false,
        context_blob := blob, recovery_completed := false }
    ({ s with m_data_blk_store := some bs, m_size_avail := size }, none)
  | some vb =>
    let bs : BlkStore :=
      { cache_type := cache_policy.WRITEBACK_CACHE, nmirror := vb.num_mirrors,
        blk_size := s.m_data_pagesz, size := vb.size, used_size := 0,
        name := "data", auto_recovery := true, recovery_init := vb.failed,
        context_blob := vb.context_data, recovery_completed := false }
    let s2 := { s with m_data_blk_store := some bs }
    if vb.failed then
      ({ s2 with m_vdev_failed := true },
       some (HsExcept.runtime_error "vdev in failed state"))
    else (s2, none)

/-- HomeStore::create_index_blkstore. -/
def create_index_blkstore (env : Env) (s : HomeStoreState)
    (vb : Option vdev_info_block) : HsResult :=
  match vb with
  | none =>
    let blob := ContextBlob.plain blkstore_type.INDEX_STORE
    let size := round_up (2 * env.total_cap / 100) env.drive_attr.phys_page_size
    let bs : BlkStore :=
      { cache_type := cache_policy.RD_MODIFY_WRITEBACK_CACHE, nmirror := 0,
        blk_size := env.drive_attr.atomic_phys_page_size, size := size,
        used_size := 0, name := "index", auto_recovery := true,
        recovery_init := false, context_blob := blob,
        recovery_completed := false }
    ({ s with m_index_blk_store := some bs }, none)
  | some vb =>
    let bs : BlkStore :=
      { cache_type := cache_policy.RD_MODIFY_WRITEBACK_CACHE,
        nmirror := vb.num_mirrors,
        blk_size := env.drive_attr.atomic_phys_page_size, size := vb.size,
        used_size := 0, name := "index", auto_recovery := true,
        recovery_init := vb.failed, context_blob := vb.context_data,
        recovery_completed := false }
    let s2 := { s with m_index_blk_store := some bs }
    if vb.failed then
      ({ s2 with m_vdev_failed := true },
       some (HsExcept.runtime_error "vdev in failed state"))
    else (s2, none)

/-- HomeStore::create_sb_blkstore (deprecated store). On first boot it writes
an sb_blkstore_blob with an invalidated blkid, constructs the store with
PASS_THRU caching and (number of devices - 1) mirrors, allocates a fresh
superblock blk (which can throw space_not_avail) and rewrites the context
with the allocated blkid. On reattach it constructs from the vdev record,
throws on a failed vdev, and throws init_failed when the recorded blkid is
invalid. -/
def create_sb_blkstore (env : Env) (s : HomeStoreState)
    (vb : Option vdev_info_block) : HsResult :=
  match vb with
  | none =>
    let blob0 := ContextBlob.withBlkid blkstore_type.SB_STORE invalid_blkid
    let size := round_up (1 * env.total_cap / 100) env.drive_attr.phys_page_size
    let bs : BlkStore :=
      { cache_type := cache_policy.PASS_THRU, nmirror := env.num_devices - 1,
        blk_size := env.drive_attr.atomic_phys_page_size, size := size,
        used_size := 0, name := "superblock", auto_recovery := false,
        recovery_init := false, context_blob := blob0,
        recovery_completed := false }
    let s2 := { s with m_sb_blk_store := some bs }
    match alloc_sb_blk env env.drive_attr.atomic_phys_page_size with
    | Except.error e => (s2, some e)
    | Except.ok bid =>
      let bs2 := { bs with context_blob :=
        ContextBlob.withBlkid blkstore_type.SB_STORE bid }
      ({ s2 with m_sb_blk_store := some bs2 }, none)
  | some vb =>
    let bs : BlkStore :=
      { cache_type := cache_policy.PASS_THRU, nmirror := vb.num_mirrors,
        blk_size := env.drive_attr.atomic_phys_page_size, size := vb.size,
        used_size := 0, name := "superblock", auto_recovery := false,
        recovery_init := false, context_blob := vb.context_data,
        recovery_completed := false }
    let s2 := { s with m_sb_blk_store := some bs }
    if vb.failed then
      ({ s2 with m_vdev_failed := true },
       some (HsExcept.runtime_error "vdev in failed state"))
    else if (vb.context_data.blkid_view).valid = false then
      (s2, some (HsExcept.homestore_exc
        "init was failed last time. Should retry it with init"
        homestore_error.init_failed))
    else (s2, none)

/-- HomeStore::create_meta_blkstore. On first boot it writes a plain META
blob and starts the meta-block manager with init = true; on reattach it
constructs from the vdev record, throws on a failed vdev, throws init_failed
when the sb_blkstore_blob view of the context has an invalid blkid, and
otherwise starts the meta-block manager with init = false. -/
def create_meta_blkstore (env : Env) (s : HomeStoreState)
    (vb : Option vdev_info_block) : HsResult :=
  match vb with
  | none =>
    let blob := ContextBlob.plain blkstore_type.META_STORE
    let size := round_up (1 * env.total_cap / 100) env.drive_attr.phys_page_size
    let bs : BlkStore :=
      { cache_type := cache_policy.PASS_THRU, nmirror := 0,
        blk_size := env.meta_blk_page_sz, size := size, used_size := 0,
        name := "meta", auto_recovery := false, recovery_init := false,
        context_blob := blob, recovery_completed := false }
    ({ s with m_meta_blk_store := some bs, meta_mgr_started := true }, none)
  | some vb =>
    let bs : BlkStore :=
      { cache_type := cache_policy.PASS_THRU, nmirror := vb.num_mirrors,
        blk_size := env.meta_blk_page_sz, size := vb.size, used_size := 0,
        name := "meta", auto_recovery := false, recovery_init := vb.failed,
        context_blob := vb.context_data, recovery_completed := false }
    let s2 := { s with m_meta_blk_store := some bs }
    if vb.failed then
      ({ s2 with m_vdev_failed := true },
       some (HsExcept.runtime_error "vdev in failed state"))
    else if (vb.context_data.blkid_view).valid = false then
      (s2, some (HsExcept.homestore_exc
        "init was failed last time. Should retry it with init"
        homestore_error.init_failed))
    else ({ s2 with meta_mgr_started := true }, none)

/-- HomeStore::create_logdev_blkstore. -/
def create_logdev_blkstore (env : Env) (s : HomeStoreState)
    (vb : Option vdev_info_block) : HsResult :=
  match vb with
  | none =>
    let blob := ContextBlob.plain blkstore_type.LOGDEV_STORE
    let size := round_up (1 * env.total_cap / 100) env.drive_attr.phys_page_size
    let bs : BlkStore :=
      { cache_type := cache_policy.PASS_THRU, nmirror := 0,
        blk_size := env.drive_attr.atomic_phys_page_size, size := size,
        used_size := 0, name := "logdev", auto_recovery := false,
        recovery_init := false, context_blob := blob,
        recovery_completed := false }
    ({ s with m_logdev_blk_store := some bs }, none)
  | some vb =>
    let bs : BlkStore :=
      { cache_type := cache_policy.PASS_THRU, nmirror := vb.num_mirrors,
        blk_size := env.drive_attr.atomic_phys_page_size, size := vb.size,
        used_size := 0, name := "logdev", auto_recovery := false,
        recovery_init := vb.failed, context_blob := vb.context_data,
        recovery_completed := false }
    let s2 := { s with m_logdev_blk_store := some bs }
    if vb.failed then
      ({ s2 with m_vdev_failed := true },
       some (HsExcept.runtime_error "vdev in failed state"))
    else (s2, none)

/-- HomeStore::new_vdev_found: reads the leading type tag of the context blob
of the discovered vdev and dispatches to the constructor of that store type. -/
def new_vdev_found (env : Env) (s : HomeStoreState) (vb : vdev_info_block) :
    HsResult :=
  match vb.context_data.tag with
  | blkstore_type.DATA_STORE => create_data_blkstore env s (some vb)
  | blkstore_type.INDEX_STORE => create_index_blkstore env s (some vb)
  | blkstore_type.SB_STORE => create_sb_blkstore env s (some vb)
  | blkstore_type.LOGDEV_STORE => create_logdev_blkstore env s (some vb)
  | blkstore_type.META_STORE => create_meta_blkstore env s (some vb)

/-- Replay of the persisted vdev catalog on reattach: the device manager
dispatches one vdev-found event per record; a thrown exception stops the
replay, so later records are never dispatched. -/
def replay_vdevs (env : Env) (s : HomeStoreState) :
    List vdev_info_block → HsResult
  | [] => (s, none)
  | vb :: rest =>
    match new_vdev_found env s vb with
    | (s2, none) => replay_vdevs env s2 rest
    | (s2, some e) => (s2, some e)

/-- HomeStore::init_devices: add_devices decides first_time_boot; on a first
boot the five stores are created with their defaults (data, index, sb,
logdev, meta, in that order); on reattach the persisted vdev records are
replayed through new_vdev_found. -/
def init_devices (env : Env) (s : HomeStoreState)
    (vdevs : List vdev_info_block) : HsResult :=
  if env.first_time_boot then
    match create_data_blkstore env s none with
    | (s1, some e) => (s1, some e)
    | (s1, none) =>
      match create_index_blkstore env s1 none with
      | (s2, some e) => (s2, some e)
      | (s2, none) =>
        match create_sb_blkstore env s2 none with
        | (s3, some e) => (s3, some e)
        | (s3, none) =>
          match create_logdev_blkstore env s3 none with
          | (s4, some e) => (s4, some e)
          | (s4, none) => create_meta_blkstore env s4 none
  else replay_vdevs env s vdevs

/-- Capacity report of HomeStore::get_system_capacity. -/
structure cap_attrs where
  used_data_size : Nat
  used_index_size : Nat
  used_total_size : Nat
  initial_total_size : Nat
deriving DecidableEq, Repr

/-- HomeStore::get_system_capacity: sums the used and total sizes of exactly
the data and the index block stores (none when either store is absent, where
the source would dereference null). -/
def get_system_capacity (s : HomeStoreState) : Option cap_attrs :=
  match s.m_data_blk_store, s.m_index_blk_store with
  | some d, some i =>
    some { used_data_size := d.used_size, used_index_size := i.used_size,
           used_total_size := d.used_size + i.used_size,
           initial_total_size := d.size + i.size }
  | _, _ => none

/-- HomeStore::data_recovery_done: forwards recovery_done to the data block
store iff this is not a first-time boot. -/
def data_recovery_done (env : Env) (s : HomeStoreState) : HomeStoreState :=
  if ¬ env.first_time_boot then
    { s with m_data_blk_store := Option.map BlkStore.recovery_done s.m_data_blk_store }
  else s

/-- HomeStore::indx_recovery_done: forwards recovery_done to the index block
store iff this is not a first-time boot. -/
def indx_recovery_done (env : Env) (s : HomeStoreState) : HomeStoreState :=
  if ¬ env.first_time_boot then
    { s with m_index_blk_store := Option.map BlkStore.recovery_done s.m_index_blk_store }
  else s

/-
  Concrete instances shared by the witnesses and counterexamples below.
-/

/-- Allocator that always succeeds with blk id 7. -/
def succ_alloc : Nat → blk_alloc_hints → BlkAllocStatus × BlkId :=
  fun _ _ => (BlkAllocStatus.SUCCESS, ⟨7, true⟩)

/-- Sample first-boot environment: two 4096-page devices, 1000000 bytes of
total capacity. -/
def envFB : Env :=
  { total_cap := 1000000, num_devices := 2, min_virtual_page_size := 4096,
    drive_attr := ⟨4096, 8192⟩, meta_blk_page_sz := 16384,
    first_time_boot := true, sb_alloc := succ_alloc }

/-- Sample reattach environment (same fleet, not a first boot). -/
def envRA : Env := { envFB with first_time_boot := false }

/-- Sample first-boot environment whose superblock allocator is out of
space. -/
def envNS : Env :=
  { envFB with sb_alloc := fun _ _ => (BlkAllocStatus.SPACE_FULL, invalid_blkid) }

/-- Sample reattached INDEX vdev record carrying failed = true. -/
def vbIndexFailed : vdev_info_block :=
  ⟨ContextBlob.plain blkstore_type.INDEX_STORE, true, 20000, 0⟩

/-- Sample healthy reattached DATA vdev record. -/
def vbData : vdev_info_block :=
  ⟨ContextBlob.plain blkstore_type.DATA_STORE, false, 900000, 0⟩

lemma create_data_sb_frame (env : Env) (s : HomeStoreState)
    (vb : vdev_info_block) :
    ((create_data_blkstore env s (some vb)).1).m_sb_blk_store
      = s.m_sb_blk_store := by
  simp only [create_data_blkstore]
  split <;> rfl

lemma create_index_sb_frame (env : Env) (s : HomeStoreState)
    (vb : vdev_info_block) :
    ((create_index_blkstore env s (some vb)).1).m_sb_blk_store
      = s.m_sb_blk_store := by
  simp only [create_index_blkstore]
  split <;> rfl

lemma create_logdev_sb_frame (env : Env) (s : HomeStoreState)
    (vb : vdev_info_block) :
    ((create_logdev_blkstore env s (some vb)).1).m_sb_blk_store
      = s.m_sb_blk_store := by
  simp only [create_logdev_blkstore]
  split <;> rfl

lemma create_meta_sb_frame (env : Env) (s : HomeStoreState)
    (vb : vdev_info_block) :
    ((create_meta_blkstore env s (some vb)).1).m_sb_blk_store
      = s.m_sb_blk_store := by
  simp only [create_meta_blkstore]
  split
  · rfl
  · split <;> rfl

lemma replay_preserves_sb (vdevs : List vdev_info_block) :
    ∀ (env : Env) (s : HomeStoreState),
      s.m_sb_blk_store = none →
      (∀ vb ∈ vdevs, vb.context_data.tag ≠ blkstore_type.SB_STORE) →
      (replay_vdevs env s vdevs).1.m_sb_blk_store = none := by
  induction vdevs with
  | nil => intro env s h _; simpa [replay_vdevs] using h
  | cons vb rest ih =>
    intro env s h hall
    have hframe : ((new_vdev_found env s vb).1).m_sb_blk_store = none := by
      have htag := hall vb (List.mem_cons_self vb rest)
      cases hcase : vb.context_data.tag with
      | DATA_STORE =>
        rw [show new_vdev_found env s vb
            = create_data_blkstore env s (some vb) by
          rw [new_vdev_found, hcase]]
        rw [create_data_sb_frame]; exact h
      | INDEX_STORE =>
        rw [show new_vdev_found env s vb
            = create_index_blkstore env s (some vb) by
          rw [new_vdev_found, hcase]]
        rw [create_index_sb_frame]; exact h
      | SB_STORE => exact absurd hcase htag
      | LOGDEV_STORE =>
        rw [show new_vdev_found env s vb
            = create_logdev_blkstore env s (some vb) by
          rw [new_vdev_found, hcase]]
        rw [create_logdev_sb_frame]; exact h
      | META_STORE =>
        rw [show new_vdev_found env s vb
            = create_meta_blkstore env s (some vb) by
          rw [new_vdev_found, hcase]]
        rw [create_meta_sb_frame]; exact h
    rw [replay_vdevs]
    cases hnv : new_vdev_found env s vb with
    | mk s2 oe =>
      cases oe with
      | none =>
        have hs2 : s2.m_sb_blk_store = none := by
          have := hframe; rw [hnv] at this; exact this
        exact ih env s2 hs2 (fun v hv => hall v (List.mem_cons_of_mem vb hv))
      | some e =>
        have := hframe; rw [hnv] at this; exact this

/-- Claim C3 counterexample: on a concrete first-time boot of a fresh engine
(two fresh devices, allocator succeeding), init_devices() does construct a
SUPERBLOCK block store, contrary to the claim that it does not. -/
theorem first_boot_sb_counterexample :
    ((init_devices envFB (init_state envFB) []).1.m_sb_blk_store).isSome
      = true := by decide

/-- Claim C3 (amended): on a first-time boot init_devices() does create a
SUPERBLOCK block store (it creates all five stores, the deprecated
SUPERBLOCK included); on reattach the SUPERBLOCK store is constructed only
when a SUPERBLOCK-tagged vdev record is rediscovered on the media. -/
theorem sb_store_creation (env env2 : Env) (s s2 : HomeStoreState)
    (vdevs vdevs2 : List vdev_info_block)
    (hfb : env.first_time_boot = true)
    (hfb2 : env2.first_time_boot = false)
    (hnone : s2.m_sb_blk_store = none)
    (hnosb : ∀ vb ∈ vdevs2, vb.context_data.tag ≠ blkstore_type.SB_STORE) :
    ((init_devices env s vdevs).1.m_sb_blk_store).isSome = true ∧
    (init_devices env2 s2 vdevs2).1.m_sb_blk_store = none := by
  constructor
  · rw [init_devices, if_pos hfb]
    simp only [create_data_blkstore, create_index_blkstore]
    rw [create_sb_blkstore]
    cases halloc : alloc_sb_blk env env.drive_attr.atomic_phys_page_size with
    | error e => simp
    | ok bid => simp [create_logdev_blkstore, create_meta_blkstore]
  · rw [init_devices, if_neg (by rw [hfb2]; exact Bool.false_ne_true)]
    exact replay_preserves_sb vdevs2 env2 s2 hnone hnosb

/-- Concrete instantiation of the amended claim C3: the sample first boot
constructs the SUPERBLOCK store, and a reattach replaying only a DATA record
leaves the SUPERBLOCK store absent. -/
theorem sb_store_creation_witness :
    ((init_devices envFB (init_state envFB) []).1.m_sb_blk_store).isSome
        = true ∧
    (init_devices envRA (init_state envRA) [vbData]).1.m_sb_blk_store
        = none :=
  sb_store_creation envFB envRA (init_state envFB) (init_state envRA) []
    [vbData] rfl rfl rfl (by decide)

/-- Claim C4: the context_data blob is {type} for the plain stores (DATA,
INDEX, LOGDEV, META) and {type, root_blkid} for the deprecated SUPERBLOCK
store (whose blkid is rewritten to the allocated root blk), and at reattach
new_vdev_found reads the leading type tag of the blob and dispatches to the
constructor of exactly that store type. -/
theorem context_blob_layout (env : Env) (s : HomeStoreState)
    (vdevs : List vdev_info_block)
    (hfb : env.first_time_boot = true)
    (halloc : (env.sb_alloc env.drive_attr.atomic_phys_page_size
        sb_alloc_hints).1 = BlkAllocStatus.SUCCESS) :
    (Option.map BlkStore.context_blob
        (init_devices env s vdevs).1.m_data_blk_store
        = some (ContextBlob.plain blkstore_type.DATA_STORE) ∧
      Option.map BlkStore.context_blob
        (init_devices env s vdevs).1.m_index_blk_store
        = some (ContextBlob.plain blkstore_type.INDEX_STORE) ∧
      Option.map BlkStore.context_blob
        (init_devices env s vdevs).1.m_logdev_blk_store
        = some (ContextBlob.plain blkstore_type.LOGDEV_STORE) ∧
      Option.map BlkStore.context_blob
        (init_devices env s vdevs).1.m_meta_blk_store
        = some (ContextBlob.plain blkstore_type.META_STORE) ∧
      Option.map BlkStore.context_blob
        (init_devices env s vdevs).1.m_sb_blk_store
        = some (ContextBlob.withBlkid blkstore_type.SB_STORE
            (env.sb_alloc env.drive_attr.atomic_phys_page_size
              sb_alloc_hints).2)) ∧
    (∀ (s2 : HomeStoreState) (vb : vdev_info_block),
      (vb.context_data.tag = blkstore_type.DATA_STORE →
        new_vdev_found env s2 vb = create_data_blkstore env s2 (some vb)) ∧
      (vb.context_data.tag = blkstore_type.INDEX_STORE →
        new_vdev_found env s2 vb = create_index_blkstore env s2 (some vb)) ∧
      (vb.context_data.tag = blkstore_type.SB_STORE →
        new_vdev_found env s2 vb = create_sb_blkstore env s2 (some vb)) ∧
      (vb.context_data.tag = blkstore_type.LOGDEV_STORE →
        new_vdev_found env s2 vb = create_logdev_blkstore env s2 (some vb)) ∧
      (vb.context_data.tag = blkstore_type.META_STORE →
        new_vdev_found env s2 vb = create_meta_blkstore env s2 (some vb))) := by
  constructor
  · have halloc2 : alloc_sb_blk env env.drive_attr.atomic_phys_page_size
        = Except.ok (env.sb_alloc env.drive_attr.atomic_phys_page_size
            sb_alloc_hints).2 := by
      rw [alloc_sb_blk]; simp [halloc]
    rw [init_devices, if_pos hfb]
    simp [create_data_blkstore, create_index_blkstore, create_sb_blkstore,
      halloc2, create_logdev_blkstore, create_meta_blkstore]
  · intro s2 vb
    refine ⟨?_, ?_, ?_, ?_, ?_⟩ <;> intro h <;> rw [new_vdev_found, h]

/-- Concrete instantiation of claim C4: on the sample first boot the
superblock store context blob holds the SB tag together with the allocated
root blkid 7. -/
theorem context_blob_layout_witness :
    Option.map BlkStore.context_blob
      (init_devices envFB (init_state envFB) []).1.m_sb_blk_store
      = some (ContextBlob.withBlkid blkstore_type.SB_STORE ⟨7, true⟩) :=
  (context_blob_layout envFB (init_state envFB) [] rfl rfl).1.2.2.2.2

lemma round_up_ge (sz a : Nat) (h : 0 < a) : sz ≤ round_up sz a := by
  rw [round_up]
  have h1 := Nat.div_add_mod (sz + a - 1) a
  have h2 : (sz + a - 1) % a < a := Nat.mod_lt _ h
  rw [Nat.mul_comm]
  generalize hM : a * ((sz + a - 1) / a) = M at h1 ⊢
  omega

lemma round_up_lt (sz a : Nat) (h : 0 < a) : round_up sz a < sz + a := by
  rw [round_up]
  have h1 := Nat.div_add_mod (sz + a - 1) a
  rw [Nat.mul_comm]
  generalize hM : a * ((sz + a - 1) / a) = M at h1 ⊢
  omega

lemma round_up_dvd (sz a : Nat) : a ∣ round_up sz a := by
  rw [round_up]
  exact dvd_mul_left a ((sz + a - 1) / a)

/-- Claim C5: on first boot each vdev size is the exact integer fraction of
the total capacity — DATA 90%, INDEX 2%, SUPERBLOCK 1%, LOGDEV 1%, META 1% —
rounded up to a multiple of the physical page size (round_up produces the
least multiple of the page size at least the fraction). -/
theorem first_boot_sizes (env : Env) (s : HomeStoreState)
    (vdevs : List vdev_info_block)
    (hfb : env.first_time_boot = true)
    (halloc : (env.sb_alloc env.drive_attr.atomic_phys_page_size
        sb_alloc_hints).1 = BlkAllocStatus.SUCCESS)
    (hpp : 0 < env.drive_attr.phys_page_size) :
    (Option.map BlkStore.size (init_devices env s vdevs).1.m_data_blk_store
        = some (round_up (90 * env.total_cap / 100)
            env.drive_attr.phys_page_size) ∧
      Option.map BlkStore.size (init_devices env s vdevs).1.m_index_blk_store
        = some (round_up (2 * env.total_cap / 100)
            env.drive_attr.phys_page_size) ∧
      Option.map BlkStore.size (init_devices env s vdevs).1.m_sb_blk_store
        = some (round_up (1 * env.total_cap / 100)
            env.drive_attr.phys_page_size) ∧
      Option.map BlkStore.size (init_devices env s vdevs).1.m_logdev_blk_store
        = some (round_up (1 * env.total_cap / 100)
            env.drive_attr.phys_page_size) ∧
      Option.map BlkStore.size (init_devices env s vdevs).1.m_meta_blk_store
        = some (round_up (1 * env.total_cap / 100)
            env.drive_attr.phys_page_size)) ∧
    (∀ sz : Nat,
      sz ≤ round_up sz env.drive_attr.phys_page_size ∧
      env.drive_attr.phys_page_size ∣ round_up sz env.drive_attr.phys_page_size ∧
      round_up sz env.drive_attr.phys_page_size
        < sz + env.drive_attr.phys_page_size) := by
  constructor
  · have halloc2 : alloc_sb_blk env env.drive_attr.atomic_phys_page_size
        = Except.ok (env.sb_alloc env.drive_attr.atomic_phys_page_size
            sb_alloc_hints).2 := by
      rw [alloc_sb_blk]; simp [halloc]
    rw [init_devices, if_pos hfb]
    simp [create_data_blkstore, create_index_blkstore, create_sb_blkstore,
      halloc2, create_logdev_blkstore, create_meta_blkstore]
  · intro sz
    exact ⟨round_up_ge sz _ hpp, round_up_dvd sz _, round_up_lt sz _ hpp⟩

/-- Concrete instantiation of claim C5: sizes of the five stores on the
sample first boot (total capacity 1000000, physical page 4096). -/
theorem first_boot_sizes_witness :
    Option.map BlkStore.size
      (init_devices envFB (init_state envFB) []).1.m_data_blk_store
      = some (round_up (90 * 1000000 / 100) 4096) :=
  (first_boot_sizes envFB (init_state envFB) [] rfl rfl (by decide)).1.1

/-- Claim C6: on first boot each block store is constructed with exactly the
per-type parameters of the table: DATA (WRITEBACK, 0 mirrors,
min_virtual_page_size), INDEX (RD-MODIFY-WRITEBACK, 0, atomic physical page),
SUPERBLOCK (PASS_THRU, number of devices minus one, atomic physical page),
LOGDEV (PASS_THRU, 0, atomic physical page), META (PASS_THRU, 0, META page
size). -/
theorem first_boot_store_params (env : Env) (vdevs : List vdev_info_block)
    (hfb : env.first_time_boot = true)
    (halloc : (env.sb_alloc env.drive_attr.atomic_phys_page_size
        sb_alloc_hints).1 = BlkAllocStatus.SUCCESS) :
    Option.map (fun b => (b.cache_type, b.nmirror, b.blk_size))
        (init_devices env (init_state env) vdevs).1.m_data_blk_store
      = some (cache_policy.WRITEBACK_CACHE, 0, env.min_virtual_page_size) ∧
    Option.map (fun b => (b.cache_type, b.nmirror, b.blk_size))
        (init_devices env (init_state env) vdevs).1.m_index_blk_store
      = some (cache_policy.RD_MODIFY_WRITEBACK_CACHE, 0,
          env.drive_attr.atomic_phys_page_size) ∧
    Option.map (fun b => (b.cache_type, b.nmirror, b.blk_size))
        (init_devices env (init_state env) vdevs).1.m_sb_blk_store
      = some (cache_policy.PASS_THRU, env.num_devices - 1,
          env.drive_attr.atomic_phys_page_size) ∧
    Option.map (fun b => (b.cache_type, b.nmirror, b.blk_size))
        (init_devices env (init_state env) vdevs).1.m_logdev_blk_store
      = some (cache_policy.PASS_THRU, 0,
          env.drive_attr.atomic_phys_page_size) ∧
    Option.map (fun b => (b.cache_type, b.nmirror, b.blk_size))
        (init_devices env (init_state env) vdevs).1.m_meta_blk_store
      = some (cache_policy.PASS_THRU, 0, env.meta_blk_page_sz) := by
  have halloc2 : alloc_sb_blk env env.drive_attr.atomic_phys_page_size
      = Except.ok (env.sb_alloc env.drive_attr.atomic_phys_page_size
          sb_alloc_hints).2 := by
    rw [alloc_sb_blk]; simp [halloc]
  rw [init_devices, if_pos hfb]
  simp [create_data_blkstore, create_index_blkstore, create_sb_blkstore,
    halloc2, create_logdev_blkstore, create_meta_blkstore, init_state]

/-- Concrete instantiation of claim C6: parameters of the SUPERBLOCK store on
the sample two-device first boot (one mirror, atomic physical page 8192). -/
theorem first_boot_store_params_witness :
    Option.map (fun b => (b.cache_type, b.nmirror, b.blk_size))
      (init_devices envFB (init_state envFB) []).1.m_sb_blk_store
      = some (cache_policy.PASS_THRU, 1, 8192) :=
  (first_boot_store_params envFB [] rfl rfl).2.2.1

/-- Recognizer of an exception that carries the homestore error kind
vdev_failed. -/
def is_vdev_failed_err : Option HsExcept → Bool
  | some (HsExcept.homestore_exc _ homestore_error.vdev_failed) => true
  | _ => false

lemma new_vdev_found_failed (env : Env) (s : HomeStoreState)
    (vb : vdev_info_block) (h : vb.failed = true) :
    (new_vdev_found env s vb).2
      = some (HsExcept.runtime_error "vdev in failed state") := by
  cases hcase : vb.context_data.tag with
  | DATA_STORE =>
    rw [show new_vdev_found env s vb = create_data_blkstore env s (some vb) by
      rw [new_vdev_found, hcase]]
    simp [create_data_blkstore, h]
  | INDEX_STORE =>
    rw [show new_vdev_found env s vb = create_index_blkstore env s (some vb) by
      rw [new_vdev_found, hcase]]
    simp [create_index_blkstore, h]
  | SB_STORE =>
    rw [show new_vdev_found env s vb = create_sb_blkstore env s (some vb) by
      rw [new_vdev_found, hcase]]
    simp [create_sb_blkstore, h]
  | LOGDEV_STORE =>
    rw [show new_vdev_found env s vb = create_logdev_blkstore env s (some vb) by
      rw [new_vdev_found, hcase]]
    simp [create_logdev_blkstore, h]
  | META_STORE =>
    rw [show new_vdev_found env s vb = create_meta_blkstore env s (some vb) by
      rw [new_vdev_found, hcase]]
    simp [create_meta_blkstore, h]

lemma replay_append (pre rest : List vdev_info_block) :
    ∀ (env : Env) (s : HomeStoreState),
      (replay_vdevs env s pre).2 = none →
      replay_vdevs env s (pre ++ rest)
        = replay_vdevs env (replay_vdevs env s pre).1 rest := by
  induction pre with
  | nil => intro env s _; rfl
  | cons vb pre2 ih =>
    intro env s hpre
    rw [List.cons_append, replay_vdevs]
    cases hnv : new_vdev_found env s vb with
    | mk s2 oe =>
      cases oe with
      | none =>
        rw [show replay_vdevs env s (vb :: pre2)
            = replay_vdevs env s2 pre2 by rw [replay_vdevs, hnv]]
        rw [show replay_vdevs env s (vb :: pre2)
            = replay_vdevs env s2 pre2 by rw [replay_vdevs, hnv]] at hpre
        exact ih env s2 hpre
      | some e =>
        rw [show replay_vdevs env s (vb :: pre2) = (s2, some e) by
          rw [replay_vdevs, hnv]] at hpre
        exact absurd hpre (by simp)

/-- Claim C7 counterexample: reattaching a fleet whose INDEX vdev record has
failed = true makes init_devices() throw, but the thrown exception is a
std::runtime_error, not an exception of the homestore error kind
vdev_failed. -/
theorem vdev_failed_counterexample :
    (init_devices envRA (init_state envRA) [vbIndexFailed]).2.isSome = true ∧
    is_vdev_failed_err
      (init_devices envRA (init_state envRA) [vbIndexFailed]).2 = false := by
  decide

/-- Claim C7 (amended): for every reattach where a vdev record has
failed = true (and the records before it replay without error), the
corresponding block-store constructor reports a fatal error propagated as a
generic runtime error with message "vdev in failed state" — not as the
homestore error kind vdev_failed — start-up stops there, and the stores whose
vdev-found events have not yet been dispatched are not constructed: the
run ends in exactly the state reached after dispatching the failed record. -/
theorem vdev_failed_stops_startup (env : Env) (s : HomeStoreState)
    (pre post : List vdev_info_block) (vb : vdev_info_block)
    (hfb : env.first_time_boot = false)
    (hfail : vb.failed = true)
    (hpre : (replay_vdevs env s pre).2 = none) :
    init_devices env s (pre ++ vb :: post)
      = ((new_vdev_found env (replay_vdevs env s pre).1 vb).1,
         some (HsExcept.runtime_error "vdev in failed state")) := by
  rw [init_devices, if_neg (by rw [hfb]; exact Bool.false_ne_true)]
  rw [replay_append pre (vb :: post) env s hpre]
  have h2 := new_vdev_found_failed env (replay_vdevs env s pre).1 vb hfail
  rw [replay_vdevs]
  cases hnv : new_vdev_found env (replay_vdevs env s pre).1 vb with
  | mk s2 oe =>
    rw [hnv] at h2
    have hoe : oe = some (HsExcept.runtime_error "vdev in failed state") := h2
    subst hoe
    rfl

/-- Concrete instantiation of the amended claim C7: replaying a failed INDEX
record followed by a DATA record stops after the INDEX record with the
runtime error; the DATA store is never constructed. -/
theorem vdev_failed_stops_startup_witness :
    init_devices envRA (init_state envRA) [vbIndexFailed, vbData]
      = ((new_vdev_found envRA (init_state envRA) vbIndexFailed).1,
         some (HsExcept.runtime_error "vdev in failed state")) :=
  vdev_failed_stops_startup envRA (init_state envRA) [] [vbData]
    vbIndexFailed rfl rfl rfl

/-- Claim C8: alloc_sb_blk(sz) requests a contiguous allocation (the hints it
passes have is_contiguous set), returns the BlkId assigned by the allocator
on SUCCESS, and throws the boundary error kind space_not_avail (returning no
BlkId) when the allocator does not return SUCCESS. -/
theorem alloc_sb_blk_spec (env : Env) (sz : Nat) :
    sb_alloc_hints.is_contiguous = true ∧
    (∀ bid : BlkId,
      env.sb_alloc sz sb_alloc_hints = (BlkAllocStatus.SUCCESS, bid) →
      alloc_sb_blk env sz = Except.ok bid) ∧
    ((env.sb_alloc sz sb_alloc_hints).1 ≠ BlkAllocStatus.SUCCESS →
      alloc_sb_blk env sz = Except.error (HsExcept.homestore_exc
        "space not available" homestore_error.space_not_avail)) := by
  refine ⟨rfl, ?_, ?_⟩
  · intro bid h
    rw [alloc_sb_blk]
    simp [h]
  · intro h
    rw [alloc_sb_blk]
    simp [h]

/-- Concrete instantiation of claim C8: the sample allocator that succeeds
yields blk id 7, and the out-of-space allocator makes alloc_sb_blk throw
space_not_avail. -/
theorem alloc_sb_blk_spec_witness :
    alloc_sb_blk envFB 4096 = Except.ok ⟨7, true⟩ ∧
    alloc_sb_blk envNS 4096 = Except.error (HsExcept.homestore_exc
      "space not available" homestore_error.space_not_avail) :=
  ⟨(alloc_sb_blk_spec envFB 4096).2.1 ⟨7, true⟩ rfl,
   (alloc_sb_blk_spec envNS 4096).2.2 (by decide)⟩

/-- Claim C9: data_recovery_done invokes the data block store recovery_done
iff the current boot is not a first-time boot, indx_recovery_done does the
same for the index block store, and on a first-time boot both calls leave the
whole state (every block store included) unchanged. -/
theorem recovery_done_iff_not_first_boot (env : Env) (s : HomeStoreState) :
    (env.first_time_boot = true →
      data_recovery_done env s = s ∧ indx_recovery_done env s = s) ∧
    (env.first_time_boot = false →
      data_recovery_done env s
        = { s with m_data_blk_store :=
            Option.map BlkStore.recovery_done s.m_data_blk_store } ∧
      indx_recovery_done env s
        = { s with m_index_blk_store :=
            Option.map BlkStore.recovery_done s.m_index_blk_store }) := by
  constructor
  · intro h
    constructor <;> simp [data_recovery_done, indx_recovery_done, h]
  · intro h
    constructor <;> simp [data_recovery_done, indx_recovery_done, h]

/-- Concrete instantiation of claim C9: on the sample first boot the state is
untouched; on the sample reattach the data store slot is mapped through
recovery_done. -/
theorem recovery_done_iff_not_first_boot_witness :
    data_recovery_done envFB (init_state envFB) = init_state envFB ∧
    data_recovery_done envRA (init_state envRA)
      = { init_state envRA with
          m_data_blk_store := Option.map BlkStore.recovery_done
            (init_state envRA).m_data_blk_store } :=
  ⟨((recovery_done_iff_not_first_boot envFB (init_state envFB)).1 rfl).1,
   ((recovery_done_iff_not_first_boot envRA (init_state envRA)).2 rfl).1⟩

/-- Claim C10: whenever the data and index stores are constructed,
get_system_capacity reports used_total_size as exactly the sum of the data
and index used sizes and initial_total_size as the sum of their total sizes;
the superblock, logdev and meta stores are excluded — any state agreeing on
the data and index slots reports the same capacity. -/
theorem system_capacity_spec (s s2 : HomeStoreState) (d i : BlkStore)
    (hd : s.m_data_blk_store = some d)
    (hi : s.m_index_blk_store = some i)
    (hd2 : s2.m_data_blk_store = s.m_data_blk_store)
    (hi2 : s2.m_index_blk_store = s.m_index_blk_store) :
    get_system_capacity s = some
      { used_data_size := d.used_size, used_index_size := i.used_size,
        used_total_size := d.used_size + i.used_size,
        initial_total_size := d.size + i.size } ∧
    get_system_capacity s2 = get_system_capacity s := by
  constructor
  · unfold get_system_capacity
    rw [hd, hi]
  · unfold get_system_capacity
    rw [hd2, hi2]

/-- Sample data store with 4096 bytes used out of 900000. -/
def bsData : BlkStore :=
  { cache_type := cache_policy.WRITEBACK_CACHE, nmirror := 0, blk_size := 4096,
    size := 900000, used_size := 4096, name := "data", auto_recovery := true,
    recovery_init := false,
    context_blob := ContextBlob.plain blkstore_type.DATA_STORE,
    recovery_completed := false }

/-- Sample index store with 8192 bytes used out of 20000. -/
def bsIndex : BlkStore :=
  { cache_type := cache_policy.RD_MODIFY_WRITEBACK_CACHE, nmirror := 0,
    blk_size := 8192, size := 20000, used_size := 8192, name := "index",
    auto_recovery := true, recovery_init := false,
    context_blob := ContextBlob.plain blkstore_type.INDEX_STORE,
    recovery_completed := false }

/-- Sample state with data and index stores constructed. -/
def sWithStores : HomeStoreState :=
  { init_state envFB with
    m_data_blk_store := some bsData,
    m_index_blk_store := some bsIndex }

/-- Variant of the sample state differing only in the meta store slot and the
failure flag. -/
def sWithStores2 : HomeStoreState :=
  { sWithStores with m_meta_blk_store := some bsIndex, m_vdev_failed := true }

/-- Concrete instantiation of claim C10 at the sample stores: the totals sum
data and index only, and a state differing in the meta slot reports the same
capacity. -/
theorem system_capacity_spec_witness :
    get_system_capacity sWithStores = some
      { used_data_size := bsData.used_size,
        used_index_size := bsIndex.used_size,
        used_total_size := bsData.used_size + bsIndex.used_size,
        initial_total_size := bsData.size + bsIndex.size } ∧
    get_system_capacity sWithStores2 = get_system_capacity sWithStores :=
  system_capacity_spec sWithStores sWithStores2 bsData bsIndex
    rfl rfl rfl rfl

end HomeStoreModel
